import Mathlib


namespace F1Bot



/-! ## Association-list dictionaries (model of Python `dict`) -/

/-- Lookup in an association list; model of `d.get(k)` / `k in d`. -/
def alookup {κ ν : Type} [DecidableEq κ] (k : κ) : List (κ × ν) → Option ν
  | [] => none
  | (k', v) :: rest => if k' = k then some v else alookup k rest

/-- Remove a key; model of `d.pop(k, None)` / `del d[k]`. -/
def aerase {κ ν : Type} [DecidableEq κ] (k : κ) : List (κ × ν) → List (κ × ν)
  | [] => []
  | p :: rest => if p.1 = k then aerase k rest else p :: aerase k rest

/-- Insert or replace a binding; model of `d[k] = v`. -/
def aupd {κ ν : Type} [DecidableEq κ] (k : κ) (v : ν) (l : List (κ × ν)) : List (κ × ν) :=
  (k, v) :: aerase k l

/-! ## storage.py — published-post ledger -/

/-- One record of `published_posts.json`: the dict appended by
`add_published` (uid, title, text, channel_message_id, timestamp). -/
structure PubPost where
  uid : String
  title : String
  text : String
  channel_message_id : Int
  timestamp : String
  deriving DecidableEq, Repr

/-- `MAX_PUBLISHED = 50` in storage.py. -/
def MAX_PUBLISHED : Nat := 50

/-- The last `n` elements of a list, Python `l[-n:]`. -/
def lastN {α : Type} (n : Nat) (l : List α) : List α :=
  l.drop (l.length - n)

/-- storage.save_published: truncate to the last MAX_PUBLISHED entries and
persist; the returned list is the persisted file contents. -/
def save_published (posts : List PubPost) : List PubPost :=
  if posts.length > MAX_PUBLISHED then lastN MAX_PUBLISHED posts else posts

/-- storage.add_published: load the ledger, append one record, save.  The
ledger file is threaded explicitly; the timestamp (datetime.now) is a
parameter. -/
def add_published (posts : List PubPost) (uid title text : String)
    (channel_message_id : Int) (timestamp : String) : List PubPost :=
  save_published (posts ++ [⟨uid, title, text, channel_message_id, timestamp⟩])

/-- A whole sequence of `add_published` calls starting from ledger `init`. -/
def addAllPublished (init : List PubPost) (entries : List PubPost) : List PubPost :=
  entries.foldl
    (fun l e => add_published l e.uid e.title e.text e.channel_message_id e.timestamp) init

/-- A concrete sequence of 55 ledger entries used to witness `ledger_bound`. -/
def sampleEntries : List PubPost :=
  (List.range 55).map (fun i => ⟨toString i, "t", "b", (i : Int), "ts"⟩)

/-! ## MD5 (model of `hashlib.md5(...).hexdigest()` used for fingerprints) -/

/-- Reduce modulo 2^32 (32-bit machine arithmetic). -/
def w32 (x : Nat) : Nat := x % 4294967296

/-- Bitwise complement on 32 bits. -/
def not32 (x : Nat) : Nat := 4294967295 ^^^ x

/-- Left rotation of a 32-bit word. -/
def rotl32 (x n : Nat) : Nat := (w32 (x <<< n)) ||| (x >>> (32 - n))

/-- The 64 MD5 sine-derived round constants. -/
def md5K : List Nat :=
  [0xd76aa478, 0xe8c7b756, 0x242070db, 0xc1bdceee,
   0xf57c0faf, 0x4787c62a, 0xa8304613, 0xfd469501,
   0x698098d8, 0x8b44f7af, 0xffff5bb1, 0x895cd7be,
   0x6b901122, 0xfd987193, 0xa679438e, 0x49b40821,
   0xf61e2562, 0xc040b340, 0x265e5a51, 0xe9b6c7aa,
   0xd62f105d, 0x02441453, 0xd8a1e681, 0xe7d3fbc8,
   0x21e1cde6, 0xc33707d6, 0xf4d50d87, 0x455a14ed,
   0xa9e3e905, 0xfcefa3f8, 0x676f02d9, 0x8d2a4c8a,
   0xfffa3942, 0x8771f681, 0x6d9d6122, 0xfde5380c,
   0xa4beea44, 0x4bdecfa9, 0xf6bb4b60, 0xbebfbc70,
   0x289b7ec6, 0xeaa127fa, 0xd4ef3085, 0x04881d05,
   0xd9d4d039, 0xe6db99e5, 0x1fa27cf8, 0xc4ac5665,
   0xf4292244, 0x432aff97, 0xab9423a7, 0xfc93a039,
   0x655b59c3, 0x8f0ccc92, 0xffeff47d, 0x85845dd1,
   0x6fa87e4f, 0xfe2ce6e0, 0xa3014314, 0x4e0811a1,
   0xf7537e82, 0xbd3af235, 0x2ad7d2bb, 0xeb86d391]

/-- The 64 MD5 per-round left-rotation amounts. -/
def md5S : List Nat :=
  [7, 12, 17, 22, 7, 12, 17, 22, 7, 12, 17, 22, 7, 12, 17, 22,
   5, 9, 14, 20, 5, 9, 14, 20, 5, 9, 14, 20, 5, 9, 14, 20,
   4, 11, 16, 23, 4, 11, 16, 23, 4, 11, 16, 23, 4, 11, 16, 23,
   6, 10, 15, 21, 6, 10, 15, 21, 6, 10, 15, 21, 6, 10, 15, 21]

/-- The four 32-bit MD5 state registers. -/
abbrev MD5State := Nat × Nat × Nat × Nat

/-- The round function and message-word index for round `i`. -/
def md5FG (i b c d : Nat) : Nat × Nat :=
  if i < 16 then ((b &&& c) ||| (not32 b &&& d), i)
  else if i < 32 then ((d &&& b) ||| (not32 d &&& c), (5 * i + 1) % 16)
  else if i < 48 then (b ^^^ c ^^^ d, (3 * i + 5) % 16)
  else (c ^^^ (b ||| not32 d), (7 * i) % 16)

/-- One of the 64 MD5 rounds over a 16-word chunk `M`. -/
def md5Round (M : List Nat) (st : MD5State) (i : Nat) : MD5State :=
  let a := st.1
  let b := st.2.1
  let c := st.2.2.1
  let d := st.2.2.2
  let fg := md5FG i b c d
  let f2 := w32 (fg.1 + a + md5K.getD i 0 + M.getD fg.2 0)
  (d, w32 (b + rotl32 f2 (md5S.getD i 0)), b, c)

/-- Process one 64-byte chunk (given as 16 little-endian words). -/
def md5Chunk (M : List Nat) (st : MD5State) : MD5State :=
  let r := (List.range 64).foldl (md5Round M) st
  (w32 (st.1 + r.1), w32 (st.2.1 + r.2.1), w32 (st.2.2.1 + r.2.2.1), w32 (st.2.2.2 + r.2.2.2))

/-- Group a byte list into 32-bit little-endian words. -/
def toWordsLE : List Nat → List Nat
  | b0 :: b1 :: b2 :: b3 :: rest =>
    (b0 + 256 * b1 + 65536 * b2 + 16777216 * b3) :: toWordsLE rest
  | _ => []

/-- The 8-byte little-endian encoding of the 64-bit bit length. -/
def lenBytesLE (n : Nat) : List Nat :=
  (List.range 8).map (fun i => (n >>> (8 * i)) % 256)

/-- MD5 padding: append 0x80, zero-pad to 56 mod 64, append the bit length. -/
def md5Pad (msg : List Nat) : List Nat :=
  let len := msg.length
  let r := (len + 1) % 64
  let zeros := (56 + 64 - r) % 64
  msg ++ [128] ++ List.replicate zeros 0 ++ lenBytesLE ((len * 8) % 18446744073709551616)

/-- The MD5 initialization vector. -/
def md5Init : MD5State := (0x67452301, 0xefcdab89, 0x98badcfe, 0x10325476)

/-- Run MD5 over a byte message, producing the final register state. -/
def md5DigestState (msg : List Nat) : MD5State :=
  let padded := md5Pad msg
  (List.range (padded.length / 64)).foldl
    (fun st j => md5Chunk (toWordsLE ((padded.drop (64 * j)).take 64)) st) md5Init

/-- Two lowercase hex characters of one byte. -/
def hexByte (b : Nat) : List Char := [Nat.digitChar (b / 16), Nat.digitChar (b % 16)]

/-- Hex rendering of one 32-bit register, least significant byte first. -/
def wordHexLE (w : Nat) : List Char :=
  hexByte (w % 256) ++ hexByte ((w >>> 8) % 256) ++ hexByte ((w >>> 16) % 256) ++
    hexByte ((w >>> 24) % 256)

/-- The 32-character lowercase hex digest of a byte message. -/
def md5HexOfBytes (msg : List Nat) : String :=
  let st := md5DigestState msg
  String.mk (wordHexLE st.1 ++ wordHexLE st.2.1 ++ wordHexLE st.2.2.1 ++ wordHexLE st.2.2.2)

/-- UTF-8 encoding of one code point (model of Python `str.encode()`). -/
def utf8Enc (c : Nat) : List Nat :=
  if c < 0x80 then [c]
  else if c < 0x800 then [0xC0 ||| (c >>> 6), 0x80 ||| (c &&& 0x3F)]
  else if c < 0x10000 then
    [0xE0 ||| (c >>> 12), 0x80 ||| ((c >>> 6) &&& 0x3F), 0x80 ||| (c &&& 0x3F)]
  else
    [0xF0 ||| (c >>> 18), 0x80 ||| ((c >>> 12) &&& 0x3F), 0x80 ||| ((c >>> 6) &&& 0x3F),
     0x80 ||| (c &&& 0x3F)]

/-- The UTF-8 bytes of a string. -/
def strBytes (s : String) : List Nat := (s.data.map (fun c => utf8Enc c.toNat)).flatten

/-- `hashlib.md5(s.encode()).hexdigest()`. -/
def md5hex (s : String) : String := md5HexOfBytes (strBytes s)

/-! ## scraper.py — ingestion -/

/-- The dataclass `NewsItem` of scraper.py; `uid` is the fingerprint. -/
structure NewsItem where
  title : String
  url : String
  source : String
  summary : String
  published : String
  content : String
  hype_score : Int
  uid : String
  deriving DecidableEq, Repr

/-- Construction of a `NewsItem` including `__post_init__`: when no uid is
passed (the dataclass default `""`), the uid is set to the MD5 hex digest
of the URL. -/
def mkNewsItem (title url source summary published content : String)
    (hype_score : Int) (uid : String) : NewsItem :=
  { title := title, url := url, source := source, summary := summary,
    published := published, content := content, hype_score := hype_score,
    uid := if uid = "" then md5hex url else uid }

/-- Add one fingerprint to the seen-set (Python `set.add`); the set is
modelled as a duplicate-free-by-construction list with `∈` membership. -/
def seenAdd (u : String) (seen : List String) : List String :=
  if u ∈ seen then seen else u :: seen

/-- scraper.collect_new_news.  The per-source `fetch_rss` results are the
parameter `fetched` (one item list per configured source); the persisted
seen-set read by `load_seen` is the parameter `seen`, and the second
component of the result is the set that `save_seen` persists at the end
of the run. -/
def collect_new_news (seen : List String) (fetched : List (List NewsItem)) :
    List NewsItem × List String :=
  let all_news := fetched.foldl
    (fun acc items => acc ++ items.filter (fun it => decide (it.uid ∉ seen))) []
  let seen2 := all_news.foldl (fun s it => seenAdd it.uid s) seen
  (all_news, seen2)

/-! ## storage.py — daily cache -/

/-- The dict stored for one analyzed item in `news_cache` and in the daily
cache buckets (uid, title, url, source, summary, hype_score). -/
structure ItemD where
  uid : String
  title : String
  url : String
  source : String
  summary : String
  hype_score : Int
  deriving DecidableEq, Repr

/-- One daily-cache store: a map from day key (ISO date string) to that
day's bucket of analyzed items. -/
abbrev DailyCache := List (String × List ItemD)

/-- storage.load_daily_cache.  `stored` is the parse result of
`daily_cache.json` (`none` models a missing file, malformed JSON, or a
non-dict payload); `today` is `datetime.now().strftime("%Y-%m-%d")`. -/
def load_daily_cache (stored : Option DailyCache) (today : String) : DailyCache :=
  match stored with
  | none => []
  | some data =>
    match alookup today data with
    | some bucket => [(today, bucket)]
    | none => []

/-- storage.save_daily_cache: the file contents written, keeping only
today's bucket (empty if absent). -/
def save_daily_cache (cache : DailyCache) (today : String) : DailyCache :=
  [(today, (alookup today cache).getD [])]

/-! ## analyzer.py — thread resolver -/

/-- The scoring collaborator's answer to the thread-matching request of
`find_related_post`: a well-formed JSON reply carrying `related_index`
(`some i` for an integer index, `none` for JSON null), a malformed reply
(wrong shape or types, which the Python code turns into a caught
exception), or a failed request (the API call raised). -/
inductive LLMResp where
  | ok (related_index : Option Int)
  | malformed
  | failed
  deriving DecidableEq, Repr

/-- analyzer.find_related_post.  `published_posts` is the candidate list;
the collaborator outcome is the parameter `resp`.  Returns the uid of the
chosen candidate when the answered index is in range, `none` otherwise;
with an empty candidate list it returns `none` before any collaborator
call is made (hence the result does not depend on `resp`). -/
def find_related_post (published_posts : List PubPost) (resp : LLMResp) : Option String :=
  if published_posts.isEmpty then none
  else
    match resp with
    | .ok (some i) =>
      if h : 0 ≤ i ∧ i < (published_posts.length : Int) then
        some (published_posts.get ⟨i.toNat, by omega⟩).uid
      else none
    | .ok none => none
    | .malformed => none
    | .failed => none

/-! ## bot.py — module state and handlers -/

/-- The module-level stores of bot.py together with the persisted ledger:
`news_cache` (uid → analyzed item), `generated_posts` (uid → draft text),
`editing_state` (chat id → uid), `post_photos` (uid → file id),
`photo_state` (chat id → uid), `reply_targets` (uid → channel message id)
and the `published_posts.json` ledger. -/
structure WS where
  news_cache : List (String × ItemD)
  generated_posts : List (String × String)
  editing_state : List (Int × String)
  post_photos : List (String × String)
  photo_state : List (Int × String)
  reply_targets : List (String × Int)
  published : List PubPost
  deriving DecidableEq, Repr

/-- The all-empty module state. -/
def emptyWS : WS := ⟨[], [], [], [], [], [], []⟩

/-- storage.find_post_by_uid over an explicit ledger. -/
def find_post_by_uid (posts : List PubPost) (uid : String) : Option PubPost :=
  posts.find? (fun p => p.uid == uid)

/-- Modelled from the spec: `storage.remove_posts_by_msg_ids` is imported
by bot.py but its definition is not among the provided sources; per the
spec, entries whose probe failed are "collected and removed from the
Ledger in one batch at the end", so the ledger keeps exactly the entries
whose channel message id is not among the collected ids. -/
def remove_posts_by_msg_ids (posts : List PubPost) (ids : List Int) : List PubPost :=
  posts.filter (fun p => !(decide (p.channel_message_id ∈ ids)))

/-- bot._cleanup_deleted_posts.  The existence probe (copy-then-delete
round trip against the channel) is the parameter `probe`; entries with a
falsy (zero) message id are skipped, failing ids are collected into one
batch and removed at the end, and the surviving recent posts are
returned. -/
def cleanup_deleted_posts (st : WS) (probe : Int → Bool) : WS × List PubPost :=
  let posts := lastN 50 st.published
  if posts.isEmpty then (st, [])
  else
    let deleted_ids := (posts.filter
      (fun p => !(decide (p.channel_message_id = 0)) && !(probe p.channel_message_id))).map
      (fun p => p.channel_message_id)
    if deleted_ids.isEmpty then (st, posts)
    else
      ({st with published := remove_posts_by_msg_ids st.published deleted_ids},
       posts.filter (fun p => !(decide (p.channel_message_id ∈ deleted_ids))))

/-- The ledger title for a draft: `news_cache.get(uid, \x7b\x7d).get("title",
"Без заголовка")`. -/
def newsTitle (st : WS) (uid : String) : String :=
  match alookup uid st.news_cache with
  | some d => d.title
  | none => "Без заголовка"

/-- Python `str.strip()`: leading and trailing whitespace removed. -/
def pyStrip (s : String) : String :=
  String.mk (((s.data.dropWhile Char.isWhitespace).reverse.dropWhile
    Char.isWhitespace).reverse)

/-- Python `str.startswith("/")`: the first character is "/". -/
def pyStartsWithSlash (s : String) : Bool :=
  match s.data with
  | c :: _ => c = '/'
  | [] => false

/-- The decimal value of a digit run, `none` when empty or non-digit. -/
def digitsVal (cs : List Char) : Option Nat :=
  if cs.isEmpty then none
  else cs.foldl (fun acc c => match acc with
    | none => none
    | some n => if c.isDigit then some (n * 10 + (c.toNat - 48)) else none) (some 0)

/-- Python `int(s)` on the callback-data fragments the bot itself
formats: an optional minus sign followed by digits; `none` models the
ValueError. -/
def pyToInt (s : String) : Option Int :=
  match s.data with
  | '-' :: rest => (digitsVal rest).map (fun n => -(n : Int))
  | l => (digitsVal l).map (fun n => (n : Int))

/-- The payload handed to the chat platform by `_do_publish`: photo with
caption or plain text, and the optional reply target actually sent. -/
structure SendReq where
  isPhoto : Bool
  content : String
  replyTo : Option Int
  deriving DecidableEq, Repr

/-- bot._do_publish.  The platform send outcome is the parameter
`outcome` (`.ok msgId` when the send returns a message id, `.error` when
it raises); `ts` is the `datetime.now` timestamp recorded in the ledger.
On success one entry is appended via `add_published` and the uid's reply
target is popped; on failure the state is untouched.  The `SendReq`
component reports what was transmitted: a caption truncated to 1024
characters when a photo is attached, the full draft otherwise, and a
reply target only when the passed id is truthy. -/
def do_publish (st : WS) (uid post : String) (reply_msg_id : Option Int)
    (outcome : Except String Int) (ts : String) : WS × SendReq × Bool :=
  let isPhoto := (alookup uid st.post_photos).isSome
  let replyTo := match reply_msg_id with
    | some m => if m = 0 then none else some m
    | none => none
  let req : SendReq := ⟨isPhoto, if isPhoto then post.take 1024 else post, replyTo⟩
  match outcome with
  | .ok msgId =>
    ({st with published := add_published st.published uid (newsTitle st uid) post msgId ts,
              reply_targets := aerase uid st.reply_targets}, req, true)
  | .error _ => (st, req, false)

/-- bot.handle_generate / regenerate: state effect only.  The extraction
and generation collaborators influence just the draft text, which is the
parameter `post`; a uid absent from `news_cache` notifies the user
(second component `true`) and leaves the state untouched. -/
def handle_generate (st : WS) (uid : String) (post : String) : WS × Bool :=
  match alookup uid st.news_cache with
  | none => (st, true)
  | some _ => ({st with generated_posts := aupd uid post st.generated_posts}, false)

/-- bot.handle_edit: a uid absent from `generated_posts` notifies and
changes nothing; otherwise the chat enters editing state for the uid. -/
def handle_edit (st : WS) (uid : String) (chat_id : Int) : WS × Bool :=
  match alookup uid st.generated_posts with
  | none => (st, true)
  | some _ => ({st with editing_state := aupd chat_id uid st.editing_state}, false)

/-- bot.handle_photo_request: a uid absent from `generated_posts`
notifies and changes nothing; otherwise the chat awaits a photo. -/
def handle_photo_request (st : WS) (uid : String) (chat_id : Int) : WS × Bool :=
  match alookup uid st.generated_posts with
  | none => (st, true)
  | some _ => ({st with photo_state := aupd chat_id uid st.photo_state}, false)

/-- The `publishnow` branch of bot.handle_callback: publish without reply
when the draft exists, else notify "Пост не найден". -/
def handle_publishnow (st : WS) (uid : String) (outcome : Except String Int)
    (ts : String) : WS × Bool :=
  match alookup uid st.generated_posts with
  | some post => ((do_publish st uid post none outcome ts).1, false)
  | none => (st, true)

/-- The `confirmreply` branch of bot.handle_callback: `int(extra)` is
modelled by `pyToInt` (`none` for the ValueError case).  Note the
source assigns `reply_targets[uid] = msg_id` before evaluating
`generated_posts[uid]`, so the KeyError path still mutates the
reply-target store. -/
def handle_confirmreply (st : WS) (uid extra : String)
    (outcome : Except String Int) (ts : String) : WS × Bool :=
  match pyToInt extra with
  | none => (st, true)
  | some m =>
    let st1 := {st with reply_targets := aupd uid m st.reply_targets}
    match alookup uid st1.generated_posts with
    | none => (st1, true)
    | some post => ((do_publish st1 uid post (some m) outcome ts).1, false)

/-- bot.handle_publish: when no reply target was chosen manually, the
handler reconciles the ledger, asks the thread resolver, and either
presents the candidate to the operator (no publish) or falls through to
`_do_publish`. -/
def handle_publish (st : WS) (uid : String) (probe : Int → Bool) (resp : LLMResp)
    (outcome : Except String Int) (ts : String) : WS × Bool :=
  match alookup uid st.generated_posts with
  | none => (st, true)
  | some post =>
    match alookup uid st.reply_targets with
    | some m => ((do_publish st uid post (some m) outcome ts).1, false)
    | none =>
      let cl := cleanup_deleted_posts st probe
      if cl.2.isEmpty then ((do_publish cl.1 uid post none outcome ts).1, false)
      else
        match find_related_post cl.2 resp with
        | some ruid =>
          match find_post_by_uid cl.1.published ruid with
          | some _ => (cl.1, false)
          | none => ((do_publish cl.1 uid post none outcome ts).1, false)
        | none => ((do_publish cl.1 uid post none outcome ts).1, false)

/-- bot.handle_text_message: a chat awaiting a photo has the wait
cancelled; else a chat in editing state leaves it and, unless the
stripped text starts with "/", the draft is replaced by the stripped
text; other chats are ignored. -/
def handle_text_message (st : WS) (chat_id : Int) (text : String) : WS :=
  match alookup chat_id st.photo_state with
  | some _ => {st with photo_state := aerase chat_id st.photo_state}
  | none =>
    match alookup chat_id st.editing_state with
    | some uid =>
      let st1 := {st with editing_state := aerase chat_id st.editing_state}
      let new_text := pyStrip text
      if pyStartsWithSlash new_text then st1
      else {st1 with generated_posts := aupd uid new_text st1.generated_posts}
    | none => st

/-- The dict appended for an analyzed item in `_save_to_daily_cache`. -/
def itemToDict (it : NewsItem) : ItemD :=
  ⟨it.uid, it.title, it.url, it.source, it.summary, it.hype_score⟩

/-- The append loop of bot._save_to_daily_cache: each analyzed item whose
uid is not in `existing_uids` is appended to the bucket and its uid added
to the set. -/
def appendNewItems (bucket : List ItemD) (seen : List String) :
    List NewsItem → List ItemD
  | [] => bucket
  | it :: rest =>
    if it.uid ∈ seen then appendNewItems bucket seen rest
    else appendNewItems (bucket ++ [itemToDict it]) (it.uid :: seen) rest

/-- bot._save_to_daily_cache: delete buckets of past days, ensure today's
bucket, append the new analyzed items deduplicated by uid, and persist. -/
def save_to_daily_cache (cache : DailyCache) (today : String)
    (items : List NewsItem) : DailyCache :=
  let kept := cache.filter (fun kv => kv.1 == today)
  let bucket := (alookup today kept).getD []
  let bucket2 := appendNewItems bucket (bucket.map (fun d => d.uid)) items
  aupd today bucket2 kept

/-- The query of bot.cmd_digest: today's bucket filtered to hype scores
between 3 and 7 inclusive, sorted by score descending (Python's stable
`list.sort` with `reverse=True` is a stable merge sort under the
greater-or-equal comparison). -/
def cmd_digest_query (cache : DailyCache) (today : String) : List ItemD :=
  let today_news := (alookup today cache).getD []
  let medium := today_news.filter
    (fun n => decide (3 ≤ n.hype_score) && decide (n.hype_score ≤ 7))
  medium.mergeSort (fun a b => decide (b.hype_score ≤ a.hype_score))

/-! ## Edit capture (claim C9) -/

/-- A state whose chat 1 is simultaneously awaiting a photo and editing
item "u" — reachable by pressing the edit button and then the photo
button. -/
def editPhotoWS : WS :=
  { emptyWS with editing_state := [(1, "u")], photo_state := [(1, "u")],
                 generated_posts := [("u", "old")] }

/-- A state whose chat 1 is editing item "u" and not awaiting a photo. -/
def editOnlyWS : WS :=
  { emptyWS with editing_state := [(1, "u")], generated_posts := [("u", "old")] }

/-- A concrete daily cache with yesterday's bucket and two items today. -/
def dcache0 : DailyCache :=
  [("2026-10-12", [⟨"u1", "t", "l", "s", "m", 5⟩, ⟨"u2", "t", "l", "s", "m", 8⟩]),
   ("2026-10-11", [⟨"u9", "t", "l", "s", "m", 4⟩])]

/-- Concrete analyzed items: a duplicate of "u1" and a new "u3". -/
def ditems0 : List NewsItem :=
  [⟨"T", "L", "S", "M", "P", "C", 4, "u1"⟩, ⟨"T2", "L2", "S2", "M2", "P2", "C2", 6, "u3"⟩]

/-! ## Theorems -/

theorem alookup_aupd_self {κ ν : Type} [DecidableEq κ] (k : κ) (v : ν) (l : List (κ × ν)) :
    alookup k (aupd k v l) = some v := by
  simp [aupd, alookup]

theorem alookup_aerase_self {κ ν : Type} [DecidableEq κ] (k : κ) (l : List (κ × ν)) :
    alookup k (aerase k l) = none := by
  induction l with
  | nil => rfl
  | cons p rest ih =>
    by_cases h : p.1 = k
    · simpa [aerase, h] using ih
    · simpa [aerase, alookup, h] using ih

theorem alookup_aerase_other {κ ν : Type} [DecidableEq κ] {k k' : κ} (h : k' ≠ k)
    (l : List (κ × ν)) : alookup k' (aerase k l) = alookup k' l := by
  have hkk : ¬(k = k') := fun hk => h hk.symm
  induction l with
  | nil => rfl
  | cons p rest ih =>
    by_cases hp : p.1 = k
    · simp [aerase, alookup, hp, hkk, h, ih]
    · by_cases hq : p.1 = k'
      · simp [aerase, alookup, hp, hq, h, hkk]
      · simp [aerase, alookup, hp, hq, ih]

theorem alookup_aupd_other {κ ν : Type} [DecidableEq κ] {k k' : κ} (h : k' ≠ k) (v : ν)
    (l : List (κ × ν)) : alookup k' (aupd k v l) = alookup k' l := by
  have hk : k ≠ k' := fun hk => h hk.symm
  simp [aupd, alookup, hk]
  exact alookup_aerase_other h l

theorem lastN_length {α : Type} (n : Nat) (l : List α) :
    (lastN n l).length = min n l.length := by
  simp [lastN]
  omega

theorem save_published_eq_lastN (posts : List PubPost) :
    save_published posts = lastN MAX_PUBLISHED posts := by
  unfold save_published lastN
  by_cases h : posts.length > MAX_PUBLISHED
  · simp [h]
  · have : posts.length - MAX_PUBLISHED = 0 := by omega
    simp [h, this]

theorem lastN_append_left_absorb {α : Type} (n : Nat) (a b : List α) :
    lastN n (lastN n a ++ b) = lastN n (a ++ b) := by
  unfold lastN
  have hdrop : a.drop (a.length - n) ++ b = (a ++ b).drop (a.length - n) := by
    rw [List.drop_append_of_le_length (by omega)]
  rw [hdrop, List.drop_drop, List.length_append, List.length_drop, List.length_append]
  congr 1
  omega

theorem addAllPublished_eq_lastN (entries : List PubPost) (init : List PubPost)
    (h : entries ≠ []) :
    addAllPublished init entries = lastN MAX_PUBLISHED (init ++ entries) := by
  induction entries generalizing init with
  | nil => exact absurd rfl h
  | cons e rest ih =>
    unfold addAllPublished at *
    simp only [List.foldl_cons]
    rcases rest with _ | ⟨e2, rest2⟩
    · simp only [List.foldl_nil, add_published]
      rw [save_published_eq_lastN]
    · rw [ih _ (by simp)]
      simp only [add_published]
      rw [save_published_eq_lastN, lastN_append_left_absorb]
      simp

theorem lastN_append_of_le {α : Type} (n : Nat) (a b : List α) (h : n ≤ b.length) :
    lastN n (a ++ b) = lastN n b := by
  unfold lastN
  have h1 : (a ++ b).length - n = a.length + (b.length - n) := by
    simp [List.length_append]; omega
  rw [h1, List.drop_append]

/-- Claim C2: for every sequence of `add_published` calls starting from any
ledger state, after the k-th call with k ≥ 50 the persisted ledger is
exactly the 50 most recently appended entries in append order (the oldest
evicted first), and every `save_published` leaves the ledger length at
most 50. -/
theorem ledger_bound (init entries : List PubPost) (h : 50 ≤ entries.length) :
    addAllPublished init entries = lastN 50 entries ∧
    (addAllPublished init entries).length = 50 ∧
    ∀ l : List PubPost, (save_published l).length ≤ 50 := by
  have hne : entries ≠ [] := by
    intro hnil; rw [hnil] at h; simp at h
  have h1 : addAllPublished init entries = lastN 50 entries := by
    rw [addAllPublished_eq_lastN entries init hne]
    exact lastN_append_of_le 50 init entries h
  refine ⟨h1, ?_, ?_⟩
  · rw [h1, lastN_length]; omega
  · intro l
    rw [save_published_eq_lastN, lastN_length]
    simp [MAX_PUBLISHED]

/-- Witness for `ledger_bound`: 55 concrete publishes starting from a
one-entry ledger leave exactly the last 50 appended entries. -/
theorem ledger_bound_witness :
    addAllPublished [⟨"x", "t", "b", 0, "ts"⟩] sampleEntries = lastN 50 sampleEntries :=
  (ledger_bound [⟨"x", "t", "b", 0, "ts"⟩] sampleEntries
    (by have hl : sampleEntries.length = 55 := by rfl
        omega)).1

theorem mem_foldl_filter {p : NewsItem → Bool} (it : NewsItem) :
    ∀ (l : List (List NewsItem)) (init : List NewsItem),
      it ∈ l.foldl (fun acc items => acc ++ items.filter p) init ↔
        it ∈ init ∨ ∃ src ∈ l, it ∈ src ∧ p it := by
  intro l
  induction l with
  | nil => intro init; simp
  | cons s rest ih =>
    intro init
    simp only [List.foldl_cons]
    rw [ih]
    simp [List.mem_append, List.mem_filter]
    tauto

theorem mem_seenAdd_of_mem {x u : String} {s : List String} (h : x ∈ s) :
    x ∈ seenAdd u s := by
  unfold seenAdd
  split
  · exact h
  · exact List.mem_cons_of_mem _ h

theorem mem_seenAdd_self (u : String) (s : List String) : u ∈ seenAdd u s := by
  unfold seenAdd
  split
  · assumption
  · exact List.mem_cons_self _ _

theorem mem_foldl_seenAdd_of_mem_seen {x : String} :
    ∀ (l : List NewsItem) (s : List String), x ∈ s →
      x ∈ l.foldl (fun s it => seenAdd it.uid s) s := by
  intro l
  induction l with
  | nil => intro s h; exact h
  | cons it rest ih =>
    intro s h
    simp only [List.foldl_cons]
    exact ih _ (mem_seenAdd_of_mem h)

theorem mem_foldl_seenAdd_of_mem_list {it : NewsItem} :
    ∀ (l : List NewsItem) (s : List String), it ∈ l →
      it.uid ∈ l.foldl (fun s it => seenAdd it.uid s) s := by
  intro l
  induction l with
  | nil => intro s h; exact absurd h (List.not_mem_nil _)
  | cons a rest ih =>
    intro s h
    simp only [List.foldl_cons]
    rcases List.mem_cons.1 h with rfl | h2
    · exact mem_foldl_seenAdd_of_mem_seen rest _ (mem_seenAdd_self _ _)
    · exact ih _ h2

/-- Claim C1: for a fixed feed-fetch result and a fixed persisted seen-set,
running `collect_new_news` twice without the first run's `save_seen`
taking effect yields the same list both times (the run is a pure function
of the persisted seen-set and the fetch result), and running it again
after the first run's `save_seen` completed yields the empty list. -/
theorem ingestion_idempotent (seen : List String) (fetched : List (List NewsItem)) :
    (collect_new_news seen fetched).1 = (collect_new_news seen fetched).1 ∧
    (collect_new_news (collect_new_news seen fetched).2 fetched).1 = [] := by
  refine ⟨rfl, ?_⟩
  apply List.eq_nil_iff_forall_not_mem.2
  intro it hit
  simp only [collect_new_news] at hit
  rw [mem_foldl_filter] at hit
  rcases hit with h | ⟨src, hsrc, hmem, hp⟩
  · simp at h
  · have huid : it.uid ∈ (collect_new_news seen fetched).2 := by
      simp only [collect_new_news]
      by_cases hs : it.uid ∈ seen
      · exact mem_foldl_seenAdd_of_mem_seen _ _ hs
      · apply mem_foldl_seenAdd_of_mem_list
        rw [mem_foldl_filter]
        exact Or.inr ⟨src, hsrc, hmem, by simpa using hs⟩
    rw [decide_eq_true_iff] at hp
    exact hp huid

/-- Claim C4: loading the daily cache yields the empty store whenever no
stored bucket is keyed by today (in particular when the single stored
bucket's day differs from today) and only today's bucket otherwise, and
saving persists exactly today's bucket, discarding every other day. -/
theorem daily_rollover (data cache : DailyCache) (today : String)
    (bucket : List ItemD) :
    (alookup today data = none → load_daily_cache (some data) today = []) ∧
    (alookup today data = some bucket →
      load_daily_cache (some data) today = [(today, bucket)]) ∧
    load_daily_cache none today = [] ∧
    alookup today (save_daily_cache cache today) = some ((alookup today cache).getD []) ∧
    (∀ day : String, day ≠ today → alookup day (save_daily_cache cache today) = none) := by
  refine ⟨?_, ?_, rfl, ?_, ?_⟩
  · intro h; simp [load_daily_cache, h]
  · intro h; simp [load_daily_cache, h]
  · simp [save_daily_cache, alookup]
  · intro day hday
    have h2 : ¬(today = day) := fun h => hday h.symm
    simp [save_daily_cache, alookup, h2]

/-- Witness for `daily_rollover` at a concrete store: a bucket stored
under yesterday's key loads as the empty store today, and saving keeps
only today's bucket. -/
theorem daily_rollover_witness :
    load_daily_cache (some [("2026-10-11", [⟨"u", "t", "l", "s", "m", 5⟩])]) "2026-10-12" = [] ∧
    load_daily_cache (some [("2026-10-12", [⟨"u", "t", "l", "s", "m", 5⟩])]) "2026-10-12" =
      [("2026-10-12", [⟨"u", "t", "l", "s", "m", 5⟩])] ∧
    alookup "2026-10-11"
      (save_daily_cache [("2026-10-11", [⟨"u", "t", "l", "s", "m", 5⟩])] "2026-10-12") = none := by
  refine ⟨?_, ?_, ?_⟩
  · exact (daily_rollover [("2026-10-11", [⟨"u", "t", "l", "s", "m", 5⟩])] [] "2026-10-12"
      []).1 (by decide)
  · exact (daily_rollover [("2026-10-12", [⟨"u", "t", "l", "s", "m", 5⟩])] [] "2026-10-12"
      [⟨"u", "t", "l", "s", "m", 5⟩]).2.1 (by decide)
  · exact (daily_rollover [] [("2026-10-11", [⟨"u", "t", "l", "s", "m", 5⟩])] "2026-10-12"
      []).2.2.2.2 "2026-10-11" (by decide)

/-- Claim C5: with the scoring collaborator stubbed to answer index `i`,
`find_related_post` returns the uid of the `i`-th candidate when `i` is
in range; it returns `none` when the stub answers null, when `i` is out
of range, when the collaborator fails or returns a malformed response,
and when the candidate list is empty — in which case no collaborator call
is made, so the result is `none` for every stub answer. -/
theorem thread_resolver_contract (posts : List PubPost) (resp : LLMResp) (i : Int) :
    (∀ h : 0 ≤ i ∧ i < (posts.length : Int),
      find_related_post posts (.ok (some i)) =
        some (posts.get ⟨i.toNat, by omega⟩).uid) ∧
    (¬(0 ≤ i ∧ i < (posts.length : Int)) →
      find_related_post posts (.ok (some i)) = none) ∧
    find_related_post posts (.ok none) = none ∧
    find_related_post posts .malformed = none ∧
    find_related_post posts .failed = none ∧
    find_related_post [] resp = none := by
  refine ⟨?_, ?_, ?_, ?_, ?_, ?_⟩
  · intro h
    have hne : posts.isEmpty = false := by
      rcases posts with _ | _
      · simp at h; omega
      · rfl
    simp [find_related_post, hne, h]
  · intro h
    rcases hne : posts.isEmpty with _ | _
    · simp [find_related_post, hne, h]
    · simp [find_related_post, hne]
  · cases hne : posts.isEmpty <;> simp [find_related_post, hne]
  · cases hne : posts.isEmpty <;> simp [find_related_post, hne]
  · cases hne : posts.isEmpty <;> simp [find_related_post, hne]
  · cases resp <;> simp [find_related_post]

/-- Witness for `thread_resolver_contract`: with two concrete candidates
and the stub answering index 1, the second candidate's uid is returned;
index 2 is out of range and yields `none`. -/
theorem thread_resolver_contract_witness :
    find_related_post [⟨"a", "t1", "x1", 1, "s"⟩, ⟨"b", "t2", "x2", 2, "s"⟩]
        (.ok (some 1)) = some "b" ∧
    find_related_post [⟨"a", "t1", "x1", 1, "s"⟩, ⟨"b", "t2", "x2", 2, "s"⟩]
        (.ok (some 2)) = none := by
  constructor
  · exact (thread_resolver_contract
      [⟨"a", "t1", "x1", 1, "s"⟩, ⟨"b", "t2", "x2", 2, "s"⟩] .failed 1).1 (by decide)
  · exact (thread_resolver_contract
      [⟨"a", "t1", "x1", 1, "s"⟩, ⟨"b", "t2", "x2", 2, "s"⟩] .failed 2).2.1 (by decide)

/-! ## Publish protocol (claim C3) and reconciliation (claim C6) -/

/-- Claim C3: `_do_publish` is atomic with respect to the ledger and the
reply target.  If the platform send returns message id `m`, exactly one
ledger entry carrying `m` is appended (then bounded by `save_published`)
and the item's reply target is removed; if the send raises, the whole
state is unchanged; and the transmitted content is the draft truncated to
the first 1024 characters exactly when a photo is attached. -/
theorem publish_transmit_atomic (st : WS) (uid post : String) (reply : Option Int)
    (ts e : String) (m : Int) (outcome : Except String Int) :
    (do_publish st uid post reply (.ok m) ts).1.published =
      save_published (st.published ++ [⟨uid, newsTitle st uid, post, m, ts⟩]) ∧
    alookup uid (do_publish st uid post reply (.ok m) ts).1.reply_targets = none ∧
    (do_publish st uid post reply (.error e) ts).1 = st ∧
    (do_publish st uid post reply outcome ts).2.1.content =
      (if (alookup uid st.post_photos).isSome then post.take 1024 else post) := by
  refine ⟨rfl, ?_, rfl, ?_⟩
  · simp only [do_publish]
    exact alookup_aerase_self uid st.reply_targets
  · cases outcome <;> rfl

theorem lastN_of_le {α : Type} {n : Nat} {l : List α} (h : l.length ≤ n) :
    lastN n l = l := by
  unfold lastN
  have h0 : l.length - n = 0 := by omega
  simp [h0]

/-- Claim C6: for every ledger (of at most the 50 probed entries, all with
truthy message ids) and every probe outcome, reconciliation removes from
the ledger exactly the entries whose probe failed — collected and removed
in one batch after all probes, which the model renders as a single filter
of the ledger — preserves the surviving entries' relative order, and
returns the survivors. -/
theorem reconciliation_removes_failed (st : WS) (probe : Int → Bool)
    (hlen : st.published.length ≤ 50)
    (hnz : ∀ p ∈ st.published, p.channel_message_id ≠ 0) :
    (cleanup_deleted_posts st probe).1.published =
      st.published.filter (fun p => probe p.channel_message_id) ∧
    (cleanup_deleted_posts st probe).2 =
      st.published.filter (fun p => probe p.channel_message_id) := by
  have hposts : lastN 50 st.published = st.published := lastN_of_le hlen
  unfold cleanup_deleted_posts
  simp only [hposts]
  by_cases hemp : st.published.isEmpty
  · have hnil : st.published = [] := List.isEmpty_iff.mp hemp
    simp [hnil]
  · rw [if_neg hemp]
    have hDalt :
        (st.published.filter
          (fun p => !(decide (p.channel_message_id = 0)) && !(probe p.channel_message_id))).map
            (fun p => p.channel_message_id) =
        (st.published.filter (fun p => !(probe p.channel_message_id))).map
            (fun p => p.channel_message_id) := by
      congr 1
      apply List.filter_congr
      intro p hp
      have h0 := hnz p hp
      simp [h0]
    have key : ∀ p ∈ st.published,
        (decide (p.channel_message_id ∈
          (st.published.filter
            (fun p => !(decide (p.channel_message_id = 0)) && !(probe p.channel_message_id))).map
              (fun p => p.channel_message_id)) : Bool) = !(probe p.channel_message_id) := by
      intro p hp
      rw [hDalt]
      by_cases hpr : probe p.channel_message_id
      · simp only [hpr, Bool.not_true, decide_eq_false_iff_not]
        intro hmem
        rcases List.mem_map.1 hmem with ⟨q, hq, hqe⟩
        rcases List.mem_filter.1 hq with ⟨hqmem, hqp⟩
        rw [Bool.not_eq_true' ] at hqp
        rw [hqe] at hqp
        rw [hpr] at hqp
        simp at hqp
      · simp only [hpr, Bool.not_false, decide_eq_true_iff]
        exact List.mem_map.2 ⟨p, List.mem_filter.2 ⟨hp, by simp [hpr]⟩, rfl⟩
    by_cases hDe : ((st.published.filter
        (fun p => !(decide (p.channel_message_id = 0)) && !(probe p.channel_message_id))).map
          (fun p => p.channel_message_id)).isEmpty
    · rw [if_pos hDe]
      have hDnil := List.isEmpty_iff.mp hDe
      have hall : ∀ p ∈ st.published, probe p.channel_message_id := by
        intro p hp
        have hk := key p hp
        rw [hDnil] at hk
        simp at hk
        exact hk
      have hfe : st.published.filter (fun p => probe p.channel_message_id) = st.published :=
        List.filter_eq_self.mpr hall
      simp [hfe]
    · rw [if_neg hDe]
      constructor
      · show remove_posts_by_msg_ids st.published _ = _
        unfold remove_posts_by_msg_ids
        apply List.filter_congr
        intro p hp
        rw [key p hp]
        simp
      · apply List.filter_congr
        intro p hp
        rw [key p hp]
        simp

/-- Witness for `reconciliation_removes_failed`: of three concrete ledger
entries with message ids 1, 2, 3 and a probe failing exactly id 2, the
entry with id 2 is removed and the survivors keep their order. -/
theorem reconciliation_witness :
    (cleanup_deleted_posts
        { emptyWS with published :=
            [⟨"a", "t", "x", 1, "s"⟩, ⟨"b", "t", "x", 2, "s"⟩, ⟨"c", "t", "x", 3, "s"⟩] }
        (fun m => decide (m ≠ 2))).1.published =
      [⟨"a", "t", "x", 1, "s"⟩, ⟨"c", "t", "x", 3, "s"⟩] := by
  have h := (reconciliation_removes_failed
    { emptyWS with published :=
        [⟨"a", "t", "x", 1, "s"⟩, ⟨"b", "t", "x", 2, "s"⟩, ⟨"c", "t", "x", 3, "s"⟩] }
    (fun m => decide (m ≠ 2)) (by decide) (by decide)).1
  rw [h]
  decide

/-! ## NotFoundError behaviour (claim C7) -/

/-- Counterexample to claim C7 as stated: a `confirmreply` action whose
uid has no workspace entry notifies the user but does NOT leave every
store unchanged — the source assigns `reply_targets[uid] = msg_id` before
the `generated_posts[uid]` lookup raises, so the reply-target store has
gained a binding. -/
theorem notfound_counterexample :
    (handle_confirmreply emptyWS "x" "5" (.error "e") "ts").2 = true ∧
    (handle_confirmreply emptyWS "x" "5" (.error "e") "ts").1 ≠ emptyWS ∧
    alookup "x" (handle_confirmreply emptyWS "x" "5" (.error "e") "ts").1.reply_targets =
      some 5 := by
  decide

/-- Claim C7 (amended): an operator action referencing a uid with no
workspace entry notifies the user and leaves every store unchanged for
generate, publish, edit, photo and publish-now; confirm-reply with an
unparsable message id also leaves the state unchanged, but confirm-reply
with a well-formed message id records that reply target before failing,
leaving every other store unchanged. -/
theorem notfound_no_state_change (st : WS) (uid post : String) (chat : Int)
    (probe : Int → Bool) (resp : LLMResp) (outcome : Except String Int)
    (ts extra : String) (m : Int)
    (h1 : alookup uid st.news_cache = none)
    (h2 : alookup uid st.generated_posts = none) :
    handle_generate st uid post = (st, true) ∧
    handle_publish st uid probe resp outcome ts = (st, true) ∧
    handle_edit st uid chat = (st, true) ∧
    handle_photo_request st uid chat = (st, true) ∧
    handle_publishnow st uid outcome ts = (st, true) ∧
    (pyToInt extra = none → handle_confirmreply st uid extra outcome ts = (st, true)) ∧
    (pyToInt extra = some m →
      handle_confirmreply st uid extra outcome ts =
        ({st with reply_targets := aupd uid m st.reply_targets}, true)) := by
  refine ⟨?_, ?_, ?_, ?_, ?_, ?_, ?_⟩
  · simp [handle_generate, h1]
  · simp [handle_publish, h2]
  · simp [handle_edit, h2]
  · simp [handle_photo_request, h2]
  · simp [handle_publishnow, h2]
  · intro h; simp [handle_confirmreply, h]
  · intro h; simp [handle_confirmreply, h, h2]

/-- Witness for `notfound_no_state_change` on the empty state: all six
actions at uid "x" behave as the amended claim states. -/
theorem notfound_no_state_change_witness :
    handle_generate emptyWS "x" "p" = (emptyWS, true) ∧
    handle_publish emptyWS "x" (fun _ => true) .failed (.ok 1) "ts" = (emptyWS, true) ∧
    handle_edit emptyWS "x" 1 = (emptyWS, true) ∧
    handle_photo_request emptyWS "x" 1 = (emptyWS, true) ∧
    handle_publishnow emptyWS "x" (.ok 1) "ts" = (emptyWS, true) ∧
    handle_confirmreply emptyWS "x" "zz" (.ok 1) "ts" = (emptyWS, true) ∧
    handle_confirmreply emptyWS "x" "5" (.ok 1) "ts" =
      ({emptyWS with reply_targets := aupd "x" 5 emptyWS.reply_targets}, true) := by
  have ha := notfound_no_state_change emptyWS "x" "p" 1 (fun _ => true) .failed (.ok 1)
    "ts" "zz" 5 rfl rfl
  have hb := notfound_no_state_change emptyWS "x" "p" 1 (fun _ => true) .failed (.ok 1)
    "ts" "5" 5 rfl rfl
  exact ⟨ha.1, ha.2.1, ha.2.2.1, ha.2.2.2.1, ha.2.2.2.2.1,
    ha.2.2.2.2.2.1 (by decide), hb.2.2.2.2.2.2 (by decide)⟩

/-- Counterexample to claim C9 as stated: for a chat in editing state the
next inbound free-text message does NOT clear the editing state when the
chat is also awaiting a photo — the photo-await branch takes precedence,
cancels the photo wait, and leaves the editing state and draft intact. -/
theorem edit_capture_counterexample :
    alookup 1 editPhotoWS.editing_state = some "u" ∧
    alookup 1 (handle_text_message editPhotoWS 1 "hello").editing_state = some "u" ∧
    alookup "u" (handle_text_message editPhotoWS 1 "hello").generated_posts = some "old" := by
  decide

/-- Claim C9 (amended): for every chat in editing state and not awaiting
a photo, the next inbound free-text message clears the editing state; if
the stripped message text begins with "/" the draft text is unchanged,
otherwise the draft is replaced by the stripped message text. -/
theorem edit_capture_and_cancel (st : WS) (chat : Int) (uid text : String)
    (hphoto : alookup chat st.photo_state = none)
    (hedit : alookup chat st.editing_state = some uid) :
    alookup chat (handle_text_message st chat text).editing_state = none ∧
    (pyStartsWithSlash (pyStrip text) = true →
      (handle_text_message st chat text).generated_posts = st.generated_posts) ∧
    (pyStartsWithSlash (pyStrip text) = false →
      alookup uid (handle_text_message st chat text).generated_posts = some (pyStrip text)) := by
  refine ⟨?_, ?_, ?_⟩
  · by_cases hs : pyStartsWithSlash (pyStrip text) <;>
      simp [handle_text_message, hphoto, hedit, hs, alookup_aerase_self]
  · intro hs; simp [handle_text_message, hphoto, hedit, hs]
  · intro hs; simp [handle_text_message, hphoto, hedit, hs, alookup_aupd_self]

/-- Witness for `edit_capture_and_cancel`: a concrete free-text message
replaces the draft by its stripped text and clears the editing state,
while a "/"-text cancels without touching the draft. -/
theorem edit_capture_and_cancel_witness :
    alookup 1 (handle_text_message editOnlyWS 1 " new text ").editing_state = none ∧
    alookup "u" (handle_text_message editOnlyWS 1 " new text ").generated_posts =
      some "new text" ∧
    (handle_text_message editOnlyWS 1 "/cancel").generated_posts =
      editOnlyWS.generated_posts := by
  have ha := edit_capture_and_cancel editOnlyWS 1 "u" " new text " rfl rfl
  have hb := edit_capture_and_cancel editOnlyWS 1 "u" "/cancel" rfl rfl
  refine ⟨ha.1, ?_, hb.2.1 (by decide)⟩
  have h2 := ha.2.2 (by decide)
  have ht : pyStrip " new text " = "new text" := by decide
  rw [ht] at h2
  exact h2

/-! ## Daily aggregate record and digest query (claim C8) -/

theorem alookup_filter_eq_self {ν : Type} (k : String) (l : List (String × ν)) :
    alookup k (l.filter (fun kv => kv.1 == k)) = alookup k l := by
  induction l with
  | nil => rfl
  | cons p rest ih =>
    by_cases hp : p.1 = k
    · simp [List.filter_cons, hp, alookup]
    · simp [List.filter_cons, hp, alookup, ih]

theorem appendNewItems_extends :
    ∀ (items : List NewsItem) (bucket : List ItemD) (seen : List String),
      ∃ rest, appendNewItems bucket seen items = bucket ++ rest := by
  intro items
  induction items with
  | nil => intro bucket seen; exact ⟨[], by simp [appendNewItems]⟩
  | cons it rest ih =>
    intro bucket seen
    by_cases hmem : it.uid ∈ seen
    · simpa [appendNewItems, hmem] using ih bucket seen
    · rcases ih (bucket ++ [itemToDict it]) (it.uid :: seen) with ⟨r, hr⟩
      refine ⟨itemToDict it :: r, ?_⟩
      simp [appendNewItems, hmem, hr]

theorem appendNewItems_nodup :
    ∀ (items : List NewsItem) (bucket : List ItemD) (seen : List String),
      (bucket.map (fun d => d.uid)).Nodup →
      (∀ u ∈ bucket.map (fun d => d.uid), u ∈ seen) →
      ((appendNewItems bucket seen items).map (fun d => d.uid)).Nodup := by
  intro items
  induction items with
  | nil => intro bucket seen hnd _; simpa [appendNewItems] using hnd
  | cons it rest ih =>
    intro bucket seen hnd hsub
    by_cases hmem : it.uid ∈ seen
    · simpa [appendNewItems, hmem] using ih bucket seen hnd hsub
    · simp only [appendNewItems, hmem, if_false]
      apply ih
      · rw [List.map_append]
        rw [List.nodup_append]
        refine ⟨hnd, by simp [itemToDict], ?_⟩
        intro u hu hu2
        simp [itemToDict] at hu2
        rw [hu2] at hu
        exact hmem (hsub _ hu)
      · intro u hu
        rw [List.map_append] at hu
        rcases List.mem_append.1 hu with hl | hr
        · exact List.mem_cons_of_mem _ (hsub u hl)
        · simp [itemToDict] at hr
          rw [hr]
          exact List.mem_cons_self _ _

/-- Claim C8: recording analyzed items into the daily cache never creates
two entries with the same fingerprint in today's bucket (given the bucket
was duplicate-free) and only appends after the existing entries, never
removing or reordering them; the digest query returns exactly the items
of today's bucket with hype score between 3 and 7 inclusive (as a
permutation of that filter), sorted by score descending. -/
theorem daily_record_and_digest (cache : DailyCache) (today : String)
    (items : List NewsItem) :
    (∃ rest, (alookup today (save_to_daily_cache cache today items)).getD [] =
      ((alookup today cache).getD []) ++ rest) ∧
    ((((alookup today cache).getD []).map (fun d => d.uid)).Nodup →
      (((alookup today (save_to_daily_cache cache today items)).getD []).map
        (fun d => d.uid)).Nodup) ∧
    (cmd_digest_query cache today).Perm
      (((alookup today cache).getD []).filter
        (fun n => decide (3 ≤ n.hype_score) && decide (n.hype_score ≤ 7))) ∧
    (cmd_digest_query cache today).Pairwise
      (fun a b => b.hype_score ≤ a.hype_score) := by
  have hnew : alookup today (save_to_daily_cache cache today items) =
      some (appendNewItems ((alookup today cache).getD [])
        (((alookup today cache).getD []).map (fun d => d.uid)) items) := by
    simp [save_to_daily_cache, alookup_aupd_self, alookup_filter_eq_self]
  refine ⟨?_, ?_, ?_, ?_⟩
  · rw [hnew]
    exact appendNewItems_extends items _ _
  · intro hnd
    rw [hnew]
    exact appendNewItems_nodup items _ _ hnd (fun u hu => hu)
  · exact List.mergeSort_perm _ _
  · have htrans : ∀ a b c : ItemD,
        (decide (b.hype_score ≤ a.hype_score) = true) →
        (decide (c.hype_score ≤ b.hype_score) = true) →
        (decide (c.hype_score ≤ a.hype_score) = true) := by
      intro a b c hab hbc
      simp only [decide_eq_true_iff] at *
      omega
    have htotal : ∀ a b : ItemD,
        (decide (b.hype_score ≤ a.hype_score) ||
          decide (a.hype_score ≤ b.hype_score)) = true := by
      intro a b
      rcases Int.le_total b.hype_score a.hype_score with h | h <;> simp [h]
    have h := List.sorted_mergeSort htrans htotal
      (((alookup today cache).getD []).filter
        (fun n => decide (3 ≤ n.hype_score) && decide (n.hype_score ≤ 7)))
    exact h.imp (fun hab => by simpa using hab)

/-- Witness for `daily_record_and_digest` at a concrete cache: the new
bucket extends the old one, stays duplicate-free, and the digest query is
the sorted 3..7 filter. -/
theorem daily_record_and_digest_witness :
    (∃ rest, (alookup "2026-10-12" (save_to_daily_cache dcache0 "2026-10-12" ditems0)).getD [] =
      ((alookup "2026-10-12" dcache0).getD []) ++ rest) ∧
    ((((alookup "2026-10-12" (save_to_daily_cache dcache0 "2026-10-12" ditems0)).getD []).map
      (fun d => d.uid)).Nodup) ∧
    (cmd_digest_query dcache0 "2026-10-12").Perm
      (((alookup "2026-10-12" dcache0).getD []).filter
        (fun n => decide (3 ≤ n.hype_score) && decide (n.hype_score ≤ 7))) ∧
    (cmd_digest_query dcache0 "2026-10-12").Pairwise
      (fun a b => b.hype_score ≤ a.hype_score) := by
  have h := daily_record_and_digest dcache0 "2026-10-12" ditems0
  exact ⟨h.1, h.2.1 (by decide), h.2.2.1, h.2.2.2⟩

/-! ## Fingerprint determinism (MD5 anchors and claim C10) -/

set_option maxRecDepth 10000 in
/-- Anchor for the MD5 model: the RFC 1321 test vectors evaluate to the
reference digests, and a URL-shaped input matches `hashlib.md5`. -/
theorem md5hex_reference_vectors :
    md5hex "" = "d41d8cd98f00b204e9800998ecf8427e" ∧
    md5hex "abc" = "900150983cd24fb0d6963f7d28e17f72" ∧
    md5hex "The quick brown fox jumps over the lazy dog" =
      "9e107d9d372bb6826bd81d3542a419d6" ∧
    md5hex "https://www.formula1.com/en/latest/article.hello.html" =
      "8d88e9fb4f1658e9a52bcfac62babde1" := by
  refine ⟨by decide, by decide, by decide, by decide⟩

set_option maxRecDepth 10000 in
/-- Claim C10: a `NewsItem` constructed without an explicit uid gets the
MD5 hex digest of its URL as fingerprint; two items with equal URLs get
equal fingerprints regardless of every other field; evaluated at a
concrete URL the fingerprint is the reference digest. -/
theorem fingerprint_deterministic (t1 t2 s1 s2 m1 m2 p1 p2 q1 q2 : String)
    (h1 h2 : Int) (url : String) :
    (mkNewsItem t1 url s1 m1 p1 q1 h1 "").uid = md5hex url ∧
    (mkNewsItem t1 url s1 m1 p1 q1 h1 "").uid = (mkNewsItem t2 url s2 m2 p2 q2 h2 "").uid ∧
    (mkNewsItem "A" "https://www.formula1.com/en/latest/article.hello.html" "B" "C" "D" "E"
        9 "").uid = "8d88e9fb4f1658e9a52bcfac62babde1" := by
  refine ⟨rfl, rfl, by decide⟩

end F1Bot
